import Mathlib

/-!
Verification of the SCIAM Cloudflare-Workers DocuSign client (src/src/index.ts).

The development shallowly embeds the protocol core of the worker:
JWT assertion construction (createJWT / base64UrlEncode), the token
exchange (getAccessToken), the single-target API helper (callDocuSignAPI),
the multi-candidate Navigator endpoint probing loops, the binary download
handler, and the top-level route dispatcher of the exported fetch handler.

Network interaction is modelled by an oracle mapping a URL to the stubbed
behaviour of the server at that URL (a response with status / body text /
structured payload, or a thrown exception).  Each embedded handler returns,
besides its result, the ordered list of requests it issued and the ordered
list of console log lines it produced, so that ordering, retry and
logging claims can be stated directly.
-/

namespace SCIAM

/-- JS fetch-Response.ok: status in the inclusive-exclusive range [200, 300). -/
def statusOk (s : Nat) : Bool := decide (200 ≤ s) && decide (s < 300)

/-- Stubbed behaviour of the server at one URL, as the worker code observes it:
either a response (status, text body for the error path, and the structured
fields the success path reads), or a thrown exception (a JS Error carrying a
message, or a non-Error value). -/
inductive FetchBx where
  | resp (status : Nat) (bodyText : String) (documents : Option (List String))
  | throwErr (msg : String)
  | throwNonErr
deriving DecidableEq, Repr

/-- The failure detail string the Navigator loops store in lastError for one
failed candidate: status-colon-body for a non-2xx response, the message for a
thrown Error, and the fixed fallback text for a non-Error throw. -/
def failDetail : FetchBx → String
  | .resp s body _ => toString s ++ ": " ++ body
  | .throwErr m => m
  | .throwNonErr => "Unknown error"

/-- Whether the stubbed behaviour is a response with a 2xx status. -/
def FetchBx.isOk : FetchBx → Bool
  | .resp s _ _ => statusOk s
  | _ => false

/-- One HTTP request as issued by the worker: URL, method, and the two headers
the code sets on Navigator document-list probes. -/
structure NavReq where
  url : String
  method : String
  authorization : String
  contentType : String
deriving DecidableEq, Repr

/-- The request shape the document-list loop issues against every candidate
URL (GET, bearer token, JSON content type) — from the fetch options object at
src/src/index.ts lines 1064-1070. -/
def mkNavReq (u token : String) : NavReq :=
  { url := u, method := "GET",
    authorization := "Bearer " ++ token, contentType := "application/json" }

/-- The success payload of the document-list handler: the JSON body it builds
(success flag elided, fields documents / count / endpoint_used). -/
structure NavSuccess where
  endpointUsed : String
  documents : List String
  count : Nat
deriving DecidableEq, Repr

/-- Full observable outcome of the document-list loop: ordered requests
issued, ordered console log lines, and the result (a thrown error message or
the success payload). -/
structure NavOut where
  probes : List NavReq
  logs : List String
  result : Except String NavSuccess
deriving Repr

/-- The final error thrown by every Navigator probing loop when all candidate
URLs have failed (src/src/index.ts line 1101): it embeds only lastError. -/
def allFailedMsg (lastError : String) : String :=
  "Navigator API error: All endpoint patterns failed. Last error: " ++ lastError

/-- The candidate-probing loop of the GET /api/navigator/documents handler
(src/src/index.ts lines 1058-1101), embedded over the oracle.  State threaded
exactly as in the source: the list of remaining candidate URLs and the
lastError string.  Each iteration logs the attempt, issues the request, and
either returns the parsed body with endpoint_used on a 2xx response, or
overwrites lastError and continues; when the list is exhausted it throws the
aggregate error built from lastError alone. -/
def navLoop (token : String) (respond : String → FetchBx) :
    List String → String → NavOut
  | [], lastError =>
    { probes := [], logs := [], result := .error (allFailedMsg lastError) }
  | u :: rest, _lastError =>
    let tryLog := "Trying Navigator API URL: " ++ u
    match respond u with
    | .resp s body docs =>
      if statusOk s then
        { probes := [mkNavReq u token],
          logs := [tryLog, "Response status: " ++ toString s,
                   "Success with URL: " ++ u],
          result := .ok { endpointUsed := u, documents := docs.getD [],
                          count := (docs.getD []).length } }
      else
        let le := toString s ++ ": " ++ body
        let out := navLoop token respond rest le
        { probes := mkNavReq u token :: out.probes,
          logs := tryLog :: ("Response status: " ++ toString s) ::
                  ("Failed with URL: " ++ u ++ " Error: " ++ le) :: out.logs,
          result := out.result }
    | .throwErr m =>
      let out := navLoop token respond rest m
      { probes := mkNavReq u token :: out.probes,
        logs := tryLog :: ("Exception with URL: " ++ u ++ " Error: " ++ m) ::
                out.logs,
        result := out.result }
    | .throwNonErr =>
      let out := navLoop token respond rest "Unknown error"
      { probes := mkNavReq u token :: out.probes,
        logs := tryLog ::
                ("Exception with URL: " ++ u ++ " Error: Unknown error") ::
                out.logs,
        result := out.result }

/-- Replace the first occurrence of pat in s by nothing — the semantics of a
JS String.replace call with a string pattern and an empty replacement, which
substitutes only the first match. -/
def replaceFirstDrop : List Char → List Char → List Char
  | [], _ => []
  | c :: rest, pat =>
    if pat.isPrefixOf (c :: rest) then (c :: rest).drop pat.length
    else c :: replaceFirstDrop rest pat

/-- The base path with the first occurrence of /restapi removed, as computed
by every Navigator handler from env.DOCUSIGN_BASE_PATH. -/
def replaceRestapi (s : String) : String :=
  String.mk (replaceFirstDrop s.data ("/restapi".data))

/-- The three candidate URL patterns of the document-list handler
(src/src/index.ts lines 1049-1056), in source order. -/
def navPatterns (basePath accountId : String) : List String :=
  [ basePath ++ "/navigator/v1/accounts/" ++ accountId ++ "/documents",
    replaceRestapi basePath ++ "/navigator/v1/accounts/" ++ accountId ++
      "/documents",
    "https://api-d.docusign.net/navigator/v1/accounts/" ++ accountId ++
      "/documents" ]

/-- The GET /api/navigator/documents handler body after token acquisition:
run the probing loop over the three patterns with lastError initially empty. -/
def navDocumentsGET (basePath accountId token : String)
    (respond : String → FetchBx) : NavOut :=
  navLoop token respond (navPatterns basePath accountId) ""

/-- Stubbed behaviour of the token endpoint as getAccessToken observes it:
a response (status, text body, and the access_token field of the JSON body,
none when the field is absent), or a thrown fetch exception. -/
inductive TokenBx where
  | resp (status : Nat) (bodyText : String) (accessToken : Option String)
  | throwErr (msg : String)
  | throwNonErr
deriving DecidableEq, Repr

/-- A thrown JS value as the catch blocks classify it: an Error carrying a
message, or any non-Error value. -/
inductive Thrown where
  | err (msg : String)
  | nonErr
deriving DecidableEq, Repr

/-- Observable outcome of getAccessToken: how many POSTs reached the token
endpoint, the ordered console output, and either the thrown error message or
the returned token value (none when the 2xx JSON body had no access_token
field, in which case the JS function returns undefined). -/
structure TokenOut where
  requests : Nat
  logs : List String
  result : Except String (Option String)
deriving Repr

/-- The platform-fixed exception text raised when the private key material
cannot be decoded or imported (atob / crypto.subtle.importKey failure).  The
platform message never embeds the key bytes; it is modelled as a constant. -/
def keyFormatErrorMsg : String := "KeyFormatError"

/-- The body of the try block of getAccessToken (src/src/index.ts lines
98-138): log the start banner, the integration key and the user id; build the
JWT (key normalisation, decoding and import abstracted into the keyOk
predicate on the raw env key — a false result models the throw from createJWT);
then POST to the token endpoint once and classify the response. -/
def getAccessTokenTry (integrationKey userId privateKey : String)
    (keyOk : String → Bool) (server : TokenBx) :
    Nat × List String × Except Thrown (Option String) :=
  let banner := ["JWT認証を開始します...",
                 "Integration Key: " ++ integrationKey,
                 "User ID: " ++ userId]
  if keyOk privateKey then
    match server with
    | .resp s body tok =>
      if statusOk s then
        (1, banner ++ ["JWT生成完了", "アクセストークン取得成功"], .ok tok)
      else
        (1, banner ++ ["JWT生成完了", "OAuth APIエラー: " ++ body],
         .error (.err ("OAuth API error: " ++ toString s ++ " " ++ body)))
    | .throwErr m => (1, banner ++ ["JWT生成完了"], .error (.err m))
    | .throwNonErr => (1, banner ++ ["JWT生成完了"], .error .nonErr)
  else
    (0, banner, .error (.err keyFormatErrorMsg))

/-- getAccessToken (src/src/index.ts lines 97-149): run the try body; on a
throw, the catch block logs the error detail (the console.error lines print
the thrown object and, for an Error, its message — the stack line, whose text
is platform-generated, is elided) and rethrows a new Error that prefixes the
fixed authentication-failure text to the original message. -/
def getAccessToken (integrationKey userId privateKey : String)
    (keyOk : String → Bool) (server : TokenBx) : TokenOut :=
  let (n, logs, res) :=
    getAccessTokenTry integrationKey userId privateKey keyOk server
  match res with
  | .ok tok => { requests := n, logs := logs, result := .ok tok }
  | .error (.err m) =>
    { requests := n,
      logs := logs ++ ["=== 認証エラーの詳細 ===",
                       "エラーオブジェクト: Error: " ++ m,
                       "エラーメッセージ: " ++ m],
      result := .error ("DocuSign認証に失敗しました: " ++ m) }
  | .error .nonErr =>
    { requests := n,
      logs := logs ++ ["=== 認証エラーの詳細 ===",
                       "エラーオブジェクト: <non-Error value>"],
      result := .error "DocuSign認証に失敗しました" }

/-- One request issued by callDocuSignAPI: URL, method, the two headers set
at src/src/index.ts lines 165-168, and the optional serialized body. -/
structure ApiReq where
  url : String
  method : String
  authorization : String
  contentType : String
  body : Option String
deriving DecidableEq, Repr

/-- A response as callDocuSignAPI observes it: status, text body (read on the
error path) and the parsed JSON body (read on the success path, opaque). -/
structure ApiResp where
  status : Nat
  bodyText : String
  json : String
deriving DecidableEq, Repr

/-- Observable outcome of callDocuSignAPI: the requests issued and either the
thrown error message or the parsed JSON body. -/
structure ApiOut where
  requests : List ApiReq
  result : Except String String
deriving Repr

/-- callDocuSignAPI (src/src/index.ts lines 154-183): issue exactly one
request to basePath concatenated with path, with a bearer Authorization
header and JSON content type; a 2xx response yields the parsed JSON body, a
non-2xx response throws an Error embedding the status and the body text. -/
def callDocuSignAPI (basePath token method path : String) (body : Option String)
    (respond : String → ApiResp) : ApiOut :=
  let url := basePath ++ path
  let r := respond url
  { requests := [{ url := url, method := method,
                   authorization := "Bearer " ++ token,
                   contentType := "application/json", body := body }],
    result :=
      if statusOk r.status then .ok r.json
      else .error ("DocuSign API error: " ++ toString r.status ++ " " ++
                   r.bodyText) }

/-- An upstream response as the binary download handler observes it: status,
text body (read on the error path), raw bytes (response.arrayBuffer), and the
two pass-through headers, none when the upstream response lacks them. -/
structure BinResp where
  status : Nat
  bodyText : String
  bytes : List Nat
  contentType : Option String
  contentDisposition : Option String
deriving DecidableEq, Repr

/-- The Response the download handler builds on success: the upstream bytes
and the two forwarded header values. -/
structure DlResp where
  bytes : List Nat
  contentType : String
  contentDisposition : String
deriving DecidableEq, Repr

/-- Observable outcome of the download handler: the URLs probed and either
the thrown error message or the built Response. -/
structure DlOut where
  probes : List String
  result : Except String DlResp
deriving Repr

/-- The single URL the first download route block probes (src/src/index.ts
lines 1121-1124): the base path with /restapi removed, then the Navigator
content path for the document. -/
def download1URL (basePath accountId docId : String) : String :=
  replaceRestapi basePath ++ "/navigator/v1/accounts/" ++ accountId ++
    "/documents/" ++ docId ++ "/content"

/-- The body of the first download route block after token acquisition
(src/src/index.ts lines 1120-1148): fetch the single content URL; a non-2xx
response throws; a 2xx response yields the raw bytes with the upstream
Content-Type and Content-Disposition header values, substituting a default
only when the upstream header is absent. -/
def downloadHandler1 (basePath accountId docId : String)
    (respond : String → BinResp) : DlOut :=
  let u := download1URL basePath accountId docId
  let r := respond u
  { probes := [u],
    result :=
      if statusOk r.status then
        .ok { bytes := r.bytes,
              contentType := r.contentType.getD "application/octet-stream",
              contentDisposition := r.contentDisposition.getD
                ("attachment; filename=\"document_" ++ docId ++ ".pdf\"") }
      else
        .error ("Navigator API error: " ++ toString r.status ++ " " ++
                r.bodyText) }

/-- The route blocks of the exported fetch handler, in source order, plus the
404 fall-through. -/
inductive Route where
  | home
  | createEnvelope
  | getEnvelope
  | listEnvelopes
  | navDocuments
  | download1
  | download2
  | download3
  | upload
  | notFound
deriving DecidableEq, Repr

/-- The route whose guard matches first, following the ordered if chain of
the fetch handler (src/src/index.ts lines 878-1339).  The three download
blocks carry syntactically identical guards and are tested in source order. -/
def dispatch (method path : String) : Route :=
  if path = "/" && method = "GET" then .home
  else if path = "/api/create-envelope" && method = "POST" then .createEnvelope
  else if path.startsWith "/api/get-envelope/" && method = "GET" then
    .getEnvelope
  else if path = "/api/list-envelopes" && method = "GET" then .listEnvelopes
  else if path = "/api/navigator/documents" && method = "GET" then
    .navDocuments
  else if path.startsWith "/api/navigator/documents/" &&
          path.endsWith "/download" && method = "GET" then .download1
  else if path.startsWith "/api/navigator/documents/" &&
          path.endsWith "/download" && method = "GET" then .download2
  else if path.startsWith "/api/navigator/documents/" &&
          path.endsWith "/download" && method = "GET" then .download3
  else if path = "/api/navigator/documents/upload" && method = "POST" then
    .upload
  else .notFound

/-- A Response body as the top level of the fetch handler builds it: the
fixed Not Found text, the JSON error object built by the top-level catch
around a message, or whatever body a route handler produced (opaque). -/
inductive BodyModel where
  | text (s : String)
  | errorJson (message : String)
  | handlerBody (payload : String)
deriving DecidableEq, Repr

/-- A Response at the top level of the fetch handler: status and body. -/
structure RespModel where
  status : Nat
  body : BodyModel
deriving DecidableEq, Repr

/-- The exported fetch handler (src/src/index.ts lines 866-1359) over
abstract route bodies: OPTIONS preflight short-circuits before routing; an
unmatched request yields the 404 response; a matched route body either
returns a Response, which is returned as is, or throws, and the top-level
catch turns the thrown value into a 500 response whose JSON body carries the
message of a thrown Error or the fixed unknown-error text otherwise. -/
def fetchModel (method path : String)
    (run : Route → Except Thrown RespModel) : RespModel :=
  if method = "OPTIONS" then { status := 200, body := .text "" }
  else
    match dispatch method path with
    | .notFound => { status := 404, body := .text "Not Found" }
    | r =>
      match run r with
      | .ok resp => resp
      | .error (.err m) => { status := 500, body := .errorJson m }
      | .error .nonErr =>
        { status := 500, body := .errorJson "不明なエラーが発生しました" }

/-- Byte strings (each element intended to be < 256), the level at which
Buffer.from and TextEncoder observe the JSON texts. -/
abbrev Bytes := List Nat

/-- Every element is a byte value. -/
abbrev allBytes (bs : Bytes) : Prop := ∀ x ∈ bs, x < 256

/-- The byte sequence of an ASCII string literal (code point per char). -/
def strBytes (s : String) : Bytes := s.data.map Char.toNat

/-- Lowercase hexadecimal digit, as JSON.stringify renders control-character
escapes. -/
def hexDigit (n : Nat) : Nat := if n < 10 then 48 + n else 87 + n

/-- JSON.stringify escaping of one byte of string content: quote and
backslash are backslash-escaped, the named control escapes are used for
backspace, tab, newline, form feed and carriage return, the remaining control
bytes become a four-digit unicode escape, and every other byte is emitted
unchanged. -/
def escapeByte (b : Nat) : Bytes :=
  if b = 34 then [92, 34]
  else if b = 92 then [92, 92]
  else if b = 8 then [92, 98]
  else if b = 9 then [92, 116]
  else if b = 10 then [92, 110]
  else if b = 12 then [92, 102]
  else if b = 13 then [92, 114]
  else if b < 32 then [92, 117, 48, 48, hexDigit (b / 16), hexDigit (b % 16)]
  else [b]

/-- JSON.stringify escaping of a whole string body. -/
def escapeBytes (s : Bytes) : Bytes := s.flatMap escapeByte

/-- A JSON string literal: quote, escaped body, quote. -/
def quoteStr (s : Bytes) : Bytes := 34 :: (escapeBytes s ++ [34])

/-- Decimal digit emission with a structural fuel argument (the fuel bounds
the number of digits; a fuel of n + 1 always suffices since each step divides
by ten). -/
def natDigitsAux : Nat → Nat → Bytes
  | 0, _ => []
  | fuel + 1, n =>
    if n < 10 then [48 + n] else natDigitsAux fuel (n / 10) ++ [48 + n % 10]

/-- Decimal digits of a natural number, as JSON.stringify renders the iat and
exp claim values. -/
def natDigits (n : Nat) : Bytes := natDigitsAux (n + 1) n

/-- The fragment of JSON values the worker serializes: strings, naturals, and
objects with insertion-ordered fields. -/
inductive Json where
  | str (s : Bytes)
  | num (n : Nat)
  | obj (fields : List (Bytes × Json))
deriving Repr

mutual

/-- JSON.stringify on the modelled value fragment. -/
def jsonStringify : Json → Bytes
  | .str s => quoteStr s
  | .num n => natDigits n
  | .obj fs => 123 :: (jsonFieldsStr fs ++ [125])

/-- JSON.stringify of an object body: comma-separated key-colon-value pairs
in insertion order. -/
def jsonFieldsStr : List (Bytes × Json) → Bytes
  | [] => []
  | [(k, v)] => quoteStr k ++ 58 :: jsonStringify v
  | (k, v) :: kv :: rest =>
    quoteStr k ++ 58 :: jsonStringify v ++ 44 :: jsonFieldsStr (kv :: rest)

end

/-- Field access on a JSON object by key (first match, none otherwise). -/
def Json.lookup (j : Json) (k : Bytes) : Option Json :=
  match j with
  | .obj fs => List.lookup k fs
  | _ => none

/-- The base64url alphabet, which is what Buffer base64 output becomes after
the plus-to-hyphen and slash-to-underscore substitutions in base64UrlEncode
and in the signature encoding. -/
def b64Chars : List Char :=
  ['A', 'B', 'C', 'D', 'E', 'F', 'G', 'H', 'I', 'J', 'K', 'L', 'M',
   'N', 'O', 'P', 'Q', 'R', 'S', 'T', 'U', 'V', 'W', 'X', 'Y', 'Z',
   'a', 'b', 'c', 'd', 'e', 'f', 'g', 'h', 'i', 'j', 'k', 'l', 'm',
   'n', 'o', 'p', 'q', 'r', 's', 't', 'u', 'v', 'w', 'x', 'y', 'z',
   '0', '1', '2', '3', '4', '5', '6', '7', '8', '9', '-', '_']

/-- The alphabet character of one six-bit value. -/
def sextetToChar (n : Nat) : Char := b64Chars.getD n 'A'

/-- Inverse of the alphabet mapping, none off the alphabet. -/
def charToSextet (c : Char) : Option Nat :=
  if c ∈ b64Chars then some (b64Chars.indexOf c) else none

/-- Unpadded base64 encoding over the base64url alphabet: three input bytes
become four characters; a final group of one or two bytes becomes two or
three characters with the padding characters already stripped, exactly the
net effect of Buffer base64 plus the equals-sign removal in the source. -/
def b64encode : Bytes → List Char
  | [] => []
  | [a] => [sextetToChar (a / 4), sextetToChar (a % 4 * 16)]
  | [a, b] =>
    [sextetToChar (a / 4), sextetToChar (a % 4 * 16 + b / 16),
     sextetToChar (b % 16 * 4)]
  | a :: b :: c :: rest =>
    sextetToChar (a / 4) :: sextetToChar (a % 4 * 16 + b / 16) ::
    sextetToChar (b % 16 * 4 + c / 64) :: sextetToChar (c % 64) ::
    b64encode rest

/-- Unpadded base64url decoding, the inverse reading: four characters yield
three bytes, a final group of two or three characters yields one or two
bytes; a lone trailing character or a character off the alphabet is
invalid. -/
def b64decode : List Char → Option Bytes
  | [] => some []
  | [w, x] => do
    let a ← charToSextet w
    let b ← charToSextet x
    some [a * 4 + b / 16]
  | [w, x, y] => do
    let a ← charToSextet w
    let b ← charToSextet x
    let c ← charToSextet y
    some [a * 4 + b / 16, b % 16 * 16 + c / 4]
  | w :: x :: y :: z :: rest => do
    let a ← charToSextet w
    let b ← charToSextet x
    let c ← charToSextet y
    let d ← charToSextet z
    let tail ← b64decode rest
    some ((a * 4 + b / 16) :: (b % 16 * 16 + c / 4) :: (c % 4 * 64 + d) :: tail)
  | _ => none

/-- Split a character list at every dot, the reading of the JWT compact
serialization as dot-joined segments. -/
def splitOnDot : List Char → List (List Char)
  | [] => [[]]
  | ch :: rest =>
    if ch = '.' then [] :: splitOnDot rest
    else
      match splitOnDot rest with
      | [] => [[ch]]
      | s :: ss => (ch :: s) :: ss

/-- base64UrlEncode (src/src/index.ts lines 27-33) at the byte level. -/
def base64UrlEncode : Bytes → List Char := b64encode

/-- The JWT header object literal of createJWT (src/src/index.ts lines
39-42). -/
def headerJson : Json :=
  .obj [(strBytes "alg", .str (strBytes "RS256")),
        (strBytes "typ", .str (strBytes "JWT"))]

/-- The JWT payload object literal of createJWT (src/src/index.ts lines
45-52): iss and sub from the env, the fixed audience and scope, iat the
current time and exp one hour later. -/
def payloadJson (iss sub : Bytes) (iat : Nat) : Json :=
  .obj [(strBytes "iss", .str iss),
        (strBytes "sub", .str sub),
        (strBytes "aud", .str (strBytes "account-d.docusign.com")),
        (strBytes "iat", .num iat),
        (strBytes "exp", .num (iat + 3600)),
        (strBytes "scope", .str (strBytes "signature impersonation"))]

/-- createJWT (src/src/index.ts lines 38-92): encode the stringified header
and payload, join them with a dot as the signing input, sign the signing
input (RSA key import and RSASSA-PKCS1-v1_5 abstracted into the sign
function on the signing-input characters), and append the base64url-encoded
signature after a second dot. -/
def createJWT (iss sub : Bytes) (iat : Nat) (sign : List Char → Bytes) :
    List Char :=
  let encodedHeader := base64UrlEncode (jsonStringify headerJson)
  let encodedPayload :=
    base64UrlEncode (jsonStringify (payloadJson iss sub iat))
  let signatureInput := encodedHeader ++ '.' :: encodedPayload
  signatureInput ++ '.' :: base64UrlEncode (sign signatureInput)

/-- C8: every single-target call through callDocuSignAPI issues exactly one
request (zero retries), that request carries the Authorization header with
the bearer token; a 2xx response yields the parsed JSON body and a non-2xx
response yields the thrown error embedding the status and the body text. -/
theorem callDocuSignAPI_contract (basePath token method path : String)
    (body : Option String) (respond : String → ApiResp) :
    (callDocuSignAPI basePath token method path body respond).requests =
      [{ url := basePath ++ path, method := method,
         authorization := "Bearer " ++ token,
         contentType := "application/json", body := body }] ∧
    (statusOk (respond (basePath ++ path)).status = true →
      (callDocuSignAPI basePath token method path body respond).result =
        .ok (respond (basePath ++ path)).json) ∧
    (statusOk (respond (basePath ++ path)).status = false →
      (callDocuSignAPI basePath token method path body respond).result =
        .error ("DocuSign API error: " ++
                toString (respond (basePath ++ path)).status ++ " " ++
                (respond (basePath ++ path)).bodyText)) := by
  refine ⟨rfl, ?_, ?_⟩ <;> intro h <;> simp [callDocuSignAPI, h]

/-- C8 witness: a stub returning HTTP 401 yields the HTTP error carrying
status 401, from exactly one issued request with the bearer header. -/
theorem callDocuSignAPI_contract_witness :
    (callDocuSignAPI "https://demo.docusign.net/restapi" "tok" "GET" "/v2.1/x"
        none (fun _ => { status := 401, bodyText := "denied", json := "" })
      ).requests =
      [{ url := "https://demo.docusign.net/restapi/v2.1/x", method := "GET",
         authorization := "Bearer tok", contentType := "application/json",
         body := none }] ∧
    (callDocuSignAPI "https://demo.docusign.net/restapi" "tok" "GET" "/v2.1/x"
        none (fun _ => { status := 401, bodyText := "denied", json := "" })
      ).result = .error "DocuSign API error: 401 denied" :=
  ⟨(callDocuSignAPI_contract "https://demo.docusign.net/restapi" "tok" "GET"
      "/v2.1/x" none
      (fun _ => { status := 401, bodyText := "denied", json := "" })).1,
   (callDocuSignAPI_contract "https://demo.docusign.net/restapi" "tok" "GET"
      "/v2.1/x" none
      (fun _ => { status := 401, bodyText := "denied", json := "" })).2.2
     (by decide)⟩

/-- C6: when the upstream response of a binary content download is 2xx and
carries Content-Type and Content-Disposition values, the handler returns the
upstream bytes exactly with both header values passed through unmodified. -/
theorem download_passthrough (basePath accountId docId : String)
    (respond : String → BinResp) (ct cd : String)
    (hok : statusOk (respond (download1URL basePath accountId docId)).status =
      true)
    (hct : (respond (download1URL basePath accountId docId)).contentType =
      some ct)
    (hcd : (respond (download1URL basePath accountId
      docId)).contentDisposition = some cd) :
    (downloadHandler1 basePath accountId docId respond).result =
      .ok { bytes := (respond (download1URL basePath accountId docId)).bytes,
            contentType := ct, contentDisposition := cd } := by
  simp [downloadHandler1, hok, hct, hcd]

/-- C6 witness: a stub serving three bytes as application/pdf with a
disposition yields exactly those bytes and those header values. -/
theorem download_passthrough_witness :
    (downloadHandler1 "https://demo.docusign.net/restapi" "acct" "doc1"
        (fun _ => { status := 200, bodyText := "", bytes := [37, 80, 68],
                    contentType := some "application/pdf",
                    contentDisposition := some "inline" })).result =
      .ok { bytes := [37, 80, 68], contentType := "application/pdf",
            contentDisposition := "inline" } :=
  download_passthrough "https://demo.docusign.net/restapi" "acct" "doc1"
    (fun _ => { status := 200, bodyText := "", bytes := [37, 80, 68],
                contentType := some "application/pdf",
                contentDisposition := some "inline" })
    "application/pdf" "inline" (by decide) rfl rfl

/-- C9: the guards of the three download route blocks are identical and are
tested in source order, so the dispatcher can never select the second or the
third block for any request, and the first block probes exactly one URL: the
configured base path with the first /restapi occurrence removed, followed by
the Navigator content path. -/
theorem duplicate_download_routes_unreachable :
    (∀ method path, dispatch method path ≠ Route.download2 ∧
      dispatch method path ≠ Route.download3) ∧
    (∀ basePath accountId docId respond,
      (downloadHandler1 basePath accountId docId respond).probes =
        [replaceRestapi basePath ++ "/navigator/v1/accounts/" ++ accountId ++
         "/documents/" ++ docId ++ "/content"]) := by
  constructor
  · intro method path
    constructor <;>
      · unfold dispatch
        repeat' split <;> simp_all
  · intro basePath accountId docId respond
    rfl

/-- C10: the exported fetch handler is total (the model returns a Response
for every request by construction; the platform guarantees request.url is
parseable, so URL parsing is elided): a request matching no route yields the
404 response, a route body that throws an Error yields a 500 response whose
JSON body carries that message, a route body that throws a non-Error value
yields the 500 response with the fixed unknown-error text, and a route body
that returns a Response is passed through. -/
theorem fetch_total_routing (method path : String)
    (run : Route → Except Thrown RespModel) :
    (method ≠ "OPTIONS" → dispatch method path = .notFound →
      fetchModel method path run =
        { status := 404, body := .text "Not Found" }) ∧
    (∀ r m, method ≠ "OPTIONS" → dispatch method path = r →
      r ≠ .notFound → run r = .error (.err m) →
      fetchModel method path run = { status := 500, body := .errorJson m }) ∧
    (∀ r, method ≠ "OPTIONS" → dispatch method path = r →
      r ≠ .notFound → run r = .error .nonErr →
      fetchModel method path run =
        { status := 500, body := .errorJson "不明なエラーが発生しました" }) ∧
    (∀ r resp, method ≠ "OPTIONS" → dispatch method path = r →
      r ≠ .notFound → run r = .ok resp →
      fetchModel method path run = resp) := by
  refine ⟨?_, ?_, ?_, ?_⟩
  · intro hm hd
    simp [fetchModel, hm, hd]
  · intro r m hm hd hr hrun
    cases r <;> simp_all [fetchModel]
  · intro r hm hd hr hrun
    cases r <;> simp_all [fetchModel]
  · intro r resp hm hd hr hrun
    cases r <;> simp_all [fetchModel]

/-- C10 witness: an unrouted GET yields 404, and a matched route whose body
throws an Error yields 500 with the message in the JSON body. -/
theorem fetch_total_routing_witness :
    fetchModel "GET" "/nope"
        (fun _ => .ok { status := 200, body := .text "" }) =
      { status := 404, body := .text "Not Found" } ∧
    fetchModel "POST" "/api/create-envelope"
        (fun _ => .error (.err "boom")) =
      { status := 500, body := .errorJson "boom" } :=
  ⟨(fetch_total_routing "GET" "/nope"
      (fun _ => .ok { status := 200, body := .text "" })).1
      (by decide) (by decide),
   (fetch_total_routing "POST" "/api/create-envelope"
      (fun _ => .error (.err "boom"))).2.1 .createEnvelope "boom"
      (by decide) (by decide) (by decide) rfl⟩

/-- C3 counterexample: a 2xx token-endpoint response whose JSON body has no
access_token field makes getAccessToken return successfully (with the
undefined token value), not fail with a MalformedResponse error: the source
reads data.access_token without any validation. -/
theorem getAccessToken_missing_field_returns
    : (getAccessToken "ik" "uid" "pk" (fun _ => true)
        (.resp 200 "" none)).result = .ok none := rfl

/-- C3 amended: for every 2xx token-endpoint response, getAccessToken
returns whatever value the access_token field holds — none (undefined) when
the field is absent — and never raises an error on a 2xx response. -/
theorem getAccessToken_returns_field (ik uid pk : String)
    (keyOk : String → Bool) (s : Nat) (body : String) (tok : Option String)
    (hkey : keyOk pk = true) (hs : statusOk s = true) :
    (getAccessToken ik uid pk keyOk (.resp s body tok)).result = .ok tok := by
  simp [getAccessToken, getAccessTokenTry, hkey, hs]

/-- C3 amended witness: a 2xx response carrying a token field yields exactly
that token value. -/
theorem getAccessToken_returns_field_witness :
    (getAccessToken "ik" "uid" "pk" (fun _ => true)
        (.resp 200 "{}" (some "T"))).result = .ok (some "T") :=
  getAccessToken_returns_field "ik" "uid" "pk" (fun _ => true) 200 "{}"
    (some "T") rfl (by decide)

/-- C4 counterexample: on a non-2xx token-endpoint response the error that
reaches the caller is not the original OAuth error unchanged — the catch
block of getAccessToken rewraps it, prefixing the fixed authentication
failure text to the original message. -/
theorem getAccessToken_rewraps_error :
    (getAccessToken "ik" "uid" "pk" (fun _ => true)
        (.resp 400 "bad" none)).result =
      .error "DocuSign認証に失敗しました: OAuth API error: 400 bad" ∧
    "DocuSign認証に失敗しました: OAuth API error: 400 bad" ≠
      "OAuth API error: 400 bad" := ⟨rfl, by decide⟩

/-- C4 amended: for every non-2xx token-endpoint response, getAccessToken
returns no token and issues exactly one request (no retry), and the error
that reaches the caller still embeds the status and the response body text,
but it is rewrapped once by the catch block, which prefixes the fixed
authentication-failure text to the original OAuth error message. -/
theorem getAccessToken_non2xx (ik uid pk : String) (keyOk : String → Bool)
    (s : Nat) (body : String) (tok : Option String)
    (hkey : keyOk pk = true) (hs : statusOk s = false) :
    (getAccessToken ik uid pk keyOk (.resp s body tok)).result =
      .error ("DocuSign認証に失敗しました: " ++
              ("OAuth API error: " ++ toString s ++ " " ++ body)) ∧
    (getAccessToken ik uid pk keyOk (.resp s body tok)).requests = 1 := by
  simp [getAccessToken, getAccessTokenTry, hkey, hs]

/-- C4 amended witness: status 400 with body text yields the once-wrapped
error embedding both, from a single request. -/
theorem getAccessToken_non2xx_witness :
    (getAccessToken "ik" "uid" "pk" (fun _ => true)
        (.resp 400 "consent_required" none)).result =
      .error ("DocuSign認証に失敗しました: " ++
              ("OAuth API error: " ++ toString 400 ++ " " ++
               "consent_required")) ∧
    (getAccessToken "ik" "uid" "pk" (fun _ => true)
        (.resp 400 "consent_required" none)).requests = 1 :=
  getAccessToken_non2xx "ik" "uid" "pk" (fun _ => true) 400
    "consent_required" none rfl (by decide)

/-- The error message of an outcome, none on success: the observable error
text a caller can see. -/
def errTextOf {α : Type} : Except String α → Option String
  | .error m => some m
  | .ok _ => none

/-- The log lines and the result of the Navigator probing loop do not depend
on the bearer token, which flows only into the Authorization header of the
issued requests. -/
theorem navLoop_token_invariant (t1 t2 : String) (respond : String → FetchBx) :
    ∀ (patterns : List String) (le : String),
      (navLoop t1 respond patterns le).logs =
        (navLoop t2 respond patterns le).logs ∧
      (navLoop t1 respond patterns le).result =
        (navLoop t2 respond patterns le).result
  | [], _le => ⟨rfl, rfl⟩
  | u :: rest, le => by
    cases hr : respond u with
    | resp s body docs =>
      by_cases hs : statusOk s = true
      · simp [navLoop, hr, hs]
      · have ih := navLoop_token_invariant t1 t2 respond rest
          (toString s ++ ": " ++ body)
        simp [navLoop, hr, hs, ih.1, ih.2]
    | throwErr m =>
      have ih := navLoop_token_invariant t1 t2 respond rest m
      simp [navLoop, hr, ih.1, ih.2]
    | throwNonErr =>
      have ih := navLoop_token_invariant t1 t2 respond rest "Unknown error"
      simp [navLoop, hr, ih.1, ih.2]

/-- C7: signing-key material and token values never appear in log or error
text.  Stated as noninterference over the embedded components: the whole
observable output of getAccessToken is invariant under changing the private
key material (for keys with equal decode outcome — only that one boolean
reaches the control flow); the log lines and error text of getAccessToken
are invariant under changing the token value the server returns; the log
lines and result of the Navigator probing loop are invariant under changing
the bearer token; and the result of callDocuSignAPI is invariant under
changing the bearer token. -/
theorem secrets_never_logged (ik uid k1 k2 : String) (keyOk : String → Bool)
    (server : TokenBx) (s : Nat) (body : String) (tok1 tok2 : Option String)
    (t1 t2 : String) (respond : String → FetchBx) (patterns : List String)
    (le : String) (basePath method path : String) (b : Option String)
    (respond2 : String → ApiResp)
    (hk : keyOk k1 = keyOk k2) :
    getAccessToken ik uid k1 keyOk server =
      getAccessToken ik uid k2 keyOk server ∧
    ((getAccessToken ik uid k1 keyOk (.resp s body tok1)).logs =
       (getAccessToken ik uid k1 keyOk (.resp s body tok2)).logs ∧
     errTextOf (getAccessToken ik uid k1 keyOk (.resp s body tok1)).result =
       errTextOf (getAccessToken ik uid k1 keyOk (.resp s body tok2)).result) ∧
    ((navLoop t1 respond patterns le).logs =
       (navLoop t2 respond patterns le).logs ∧
     (navLoop t1 respond patterns le).result =
       (navLoop t2 respond patterns le).result) ∧
    (callDocuSignAPI basePath t1 method path b respond2).result =
      (callDocuSignAPI basePath t2 method path b respond2).result := by
  refine ⟨?_, ?_, navLoop_token_invariant t1 t2 respond patterns le, rfl⟩
  · simp [getAccessToken, getAccessTokenTry, hk]
  · by_cases hs : statusOk s = true <;>
      by_cases hkey : keyOk k1 = true <;>
        simp [getAccessToken, getAccessTokenTry, hs, hkey, errTextOf]

/-- C7 witness: with two different keys of equal decode outcome, the whole
observable output of getAccessToken coincides at a concrete server stub. -/
theorem secrets_never_logged_witness :
    getAccessToken "i" "u" "k1" (fun _ => true) (.resp 200 "" (some "T")) =
      getAccessToken "i" "u" "k2" (fun _ => true) (.resp 200 "" (some "T")) :=
  (secrets_never_logged "i" "u" "k1" "k2" (fun _ => true)
    (.resp 200 "" (some "T")) 200 "" (some "A") (some "B") "t1" "t2"
    (fun _ => .resp 404 "x" none) ["P"] "" "b" "GET" "/p" none
    (fun _ => { status := 401, bodyText := "d", json := "" }) rfl).1

/-- The console lines of one failed candidate attempt, per behaviour kind:
the attempt line, the status line for an obtained response, and the failure
or exception line embedding the failure detail. -/
def attemptLogs (u : String) (bx : FetchBx) : List String :=
  match bx with
  | .resp s body _ =>
    ["Trying Navigator API URL: " ++ u, "Response status: " ++ toString s,
     "Failed with URL: " ++ u ++ " Error: " ++ (toString s ++ ": " ++ body)]
  | .throwErr m =>
    ["Trying Navigator API URL: " ++ u,
     "Exception with URL: " ++ u ++ " Error: " ++ m]
  | .throwNonErr =>
    ["Trying Navigator API URL: " ++ u,
     "Exception with URL: " ++ u ++ " Error: Unknown error"]

/-- navLoop on the empty candidate list throws the aggregate error built
from the current lastError. -/
theorem navLoop_nil (token : String) (respond : String → FetchBx)
    (le : String) :
    navLoop token respond [] le =
      { probes := [], logs := [], result := .error (allFailedMsg le) } := rfl

/-- One loop step on a candidate that answers 2xx: short-circuit with the
parsed body and the winning URL; the remaining candidates are not probed. -/
theorem navLoop_cons_ok (token : String) (respond : String → FetchBx)
    (u : String) (rest : List String) (le : String) (s : Nat) (body : String)
    (docs : Option (List String))
    (hr : respond u = .resp s body docs) (hs : statusOk s = true) :
    navLoop token respond (u :: rest) le =
      { probes := [mkNavReq u token],
        logs := ["Trying Navigator API URL: " ++ u,
                 "Response status: " ++ toString s,
                 "Success with URL: " ++ u],
        result := .ok { endpointUsed := u, documents := docs.getD [],
                        count := (docs.getD []).length } } := by
  simp [navLoop, hr, hs]

/-- One loop step on a failing candidate: the attempt is logged with its
failure detail, lastError is overwritten with that detail, and the loop
continues with the remaining candidates. -/
theorem navLoop_cons_fail (token : String) (respond : String → FetchBx)
    (u : String) (rest : List String) (le : String)
    (hfail : (respond u).isOk = false) :
    navLoop token respond (u :: rest) le =
      { probes := mkNavReq u token ::
          (navLoop token respond rest (failDetail (respond u))).probes,
        logs := attemptLogs u (respond u) ++
          (navLoop token respond rest (failDetail (respond u))).logs,
        result :=
          (navLoop token respond rest (failDetail (respond u))).result } := by
  cases hr : respond u with
  | resp s' b' d' =>
    have hs' : statusOk s' = false := by
      rw [hr] at hfail; simpa [FetchBx.isOk] using hfail
    simp [navLoop, hr, hs', attemptLogs, failDetail]
  | throwErr m => simp [navLoop, hr, attemptLogs, failDetail]
  | throwNonErr => simp [navLoop, hr, attemptLogs, failDetail]

/-- C1: when the candidate list splits as pre ++ winner :: rest with every
candidate of pre failing and the winner answering 2xx, the document-list
loop issues requests of identical shape to exactly the candidates up to and
including the winner, in the given order (rest is never probed), logs every
earlier failure in order, and returns the parsed body of the winner together
with the winner as endpoint_used. -/
theorem navigator_list_first_success (token : String)
    (respond : String → FetchBx) (w : String) (s : Nat) (body : String)
    (docs : Option (List String)) :
    ∀ (pre : List String) (rest : List String) (le : String),
      (∀ u ∈ pre, (respond u).isOk = false) →
      respond w = .resp s body docs → statusOk s = true →
      navLoop token respond (pre ++ w :: rest) le =
        { probes := (pre ++ [w]).map (fun u => mkNavReq u token),
          logs := pre.flatMap (fun u => attemptLogs u (respond u)) ++
                  ["Trying Navigator API URL: " ++ w,
                   "Response status: " ++ toString s,
                   "Success with URL: " ++ w],
          result := .ok { endpointUsed := w, documents := docs.getD [],
                          count := (docs.getD []).length } }
  | [], rest, le, _hpre, hw, hs => by
    rw [List.nil_append, navLoop_cons_ok token respond w rest le s body docs
      hw hs]
    simp
  | u :: pre, rest, le, hpre, hw, hs => by
    have hu : (respond u).isOk = false := hpre u (by simp)
    have hrest : ∀ v ∈ pre, (respond v).isOk = false :=
      fun v hv => hpre v (by simp [hv])
    have ih := navigator_list_first_success token respond w s body docs
      pre rest (failDetail (respond u)) hrest hw hs
    rw [List.cons_append,
      navLoop_cons_fail token respond u (pre ++ w :: rest)
        le hu, ih]
    simp

/-- C1 witness: with candidates A failing with 404, B failing with 500 and C
answering 200, the loop probes exactly A, B, C in order with the same
request shape, logs the two failures in order, and returns the body of C
with C as endpoint_used. -/
theorem navigator_list_first_success_witness :
    navLoop "tok"
        (fun u => if u = "C" then .resp 200 "" (some ["d1"])
                  else if u = "A" then .resp 404 "na" none
                  else .resp 500 "nb" none)
        ["A", "B", "C"] "" =
      { probes := ["A", "B", "C"].map (fun u => mkNavReq u "tok"),
        logs := ["A", "B"].flatMap (fun u => attemptLogs u
                  (if u = "C" then .resp 200 "" (some ["d1"])
                   else if u = "A" then .resp 404 "na" none
                   else .resp 500 "nb" none)) ++
                ["Trying Navigator API URL: C",
                 "Response status: " ++ toString 200,
                 "Success with URL: C"],
        result := .ok { endpointUsed := "C", documents := ["d1"],
                        count := 1 } } :=
  navigator_list_first_success "tok"
    (fun u => if u = "C" then .resp 200 "" (some ["d1"])
              else if u = "A" then .resp 404 "na" none
              else .resp 500 "nb" none)
    "C" 200 "" (some ["d1"]) ["A", "B"] [] ""
    (by decide) (by decide) (by decide)

/-- C2 amended: when every candidate fails, the loop probes all candidates
in order and logs each failure detail in order, but the error it throws is
the fixed aggregate message embedding only the failure detail of the last
candidate; the earlier details reach only the console log, not the error. -/
theorem navigator_list_all_fail (token : String)
    (respond : String → FetchBx) :
    ∀ (patterns : List String) (le : String) (hne : patterns ≠ []),
      (∀ u ∈ patterns, (respond u).isOk = false) →
      (navLoop token respond patterns le).result =
        .error (allFailedMsg (failDetail (respond (patterns.getLast hne)))) ∧
      (navLoop token respond patterns le).probes =
        patterns.map (fun u => mkNavReq u token) ∧
      (navLoop token respond patterns le).logs =
        patterns.flatMap (fun u => attemptLogs u (respond u))
  | [], _le, hne, _h => absurd rfl hne
  | [u], le, _hne, h => by
    have hu : (respond u).isOk = false := h u (by simp)
    rw [navLoop_cons_fail token respond u [] le hu, navLoop_nil]
    simp
  | u :: v :: rest, le, _hne, h => by
    have hu : (respond u).isOk = false := h u (by simp)
    have hrest : ∀ x ∈ v :: rest, (respond x).isOk = false :=
      fun x hx => h x (by simp [hx])
    have hne2 : v :: rest ≠ [] := by simp
    have ih := navigator_list_all_fail token respond (v :: rest)
      (failDetail (respond u)) hne2 hrest
    rw [navLoop_cons_fail token respond u (v :: rest) le hu]
    refine ⟨?_, ?_, ?_⟩
    · rw [ih.1]
      simp [List.getLast_cons hne2]
    · rw [ih.2.1]
      simp
    · rw [ih.2.2]
      simp

/-- Does needle occur as a contiguous segment of hay. -/
def containsSeg (needle : List Char) : List Char → Bool
  | [] => needle.isEmpty
  | c :: t => needle.isPrefixOf (c :: t) || containsSeg needle t

/-- A stub under which both candidates fail with distinct details. -/
def twoFailStub : String → FetchBx := fun u =>
  if u = "A" then .resp 404 "a" none else .resp 500 "b" none

/-- C2 counterexample: with candidates A and B both failing, the thrown
error is a single message embedding only the last failure detail (500: b);
the detail of candidate A (404: a) occurs nowhere in the error text, so the
error does not carry one history entry per candidate. -/
theorem navigator_list_error_drops_history :
    (navLoop "t" twoFailStub ["A", "B"] "").result =
      .error
        "Navigator API error: All endpoint patterns failed. Last error: 500: b" ∧
    containsSeg ("404: a".data)
      ("Navigator API error: All endpoint patterns failed. Last error: 500: b".data)
      = false := by
  constructor
  · rfl
  · decide

/-- C2 amended witness: with both stub candidates failing, the result is the
aggregate error built from the last failure detail, with both candidates
probed and both failures logged in order. -/
theorem navigator_list_all_fail_witness :
    (navLoop "t" twoFailStub ["A", "B"] "").result =
      .error (allFailedMsg (failDetail (twoFailStub "B"))) ∧
    (navLoop "t" twoFailStub ["A", "B"] "").probes =
      ["A", "B"].map (fun u => mkNavReq u "t") ∧
    (navLoop "t" twoFailStub ["A", "B"] "").logs =
      ["A", "B"].flatMap (fun u => attemptLogs u (twoFailStub u)) :=
  navigator_list_all_fail "t" twoFailStub ["A", "B"] "" (by decide)
    (by decide)

/-- Alphabet mapping round trip on six-bit values. -/
theorem charToSextet_sextetToChar :
    ∀ n < 64, charToSextet (sextetToChar n) = some n := by decide

/-- The alphabet never contains the dot separator. -/
theorem sextetToChar_ne_dot (n : Nat) : sextetToChar n ≠ '.' := by
  rcases Nat.lt_or_ge n 64 with h | h
  · exact (by decide : ∀ m < 64, sextetToChar m ≠ '.') n h
  · unfold sextetToChar
    rw [List.getD_eq_default]
    · decide
    · simpa [b64Chars] using h

/-- No character of a base64url encoding is the dot separator. -/
theorem b64encode_no_dot : ∀ bs : Bytes, ∀ ch ∈ b64encode bs, ch ≠ '.'
  | [] => by simp [b64encode]
  | [a] => by
    simp only [b64encode, List.mem_cons, List.not_mem_nil, or_false]
    rintro ch (rfl | rfl) <;> exact sextetToChar_ne_dot _
  | [a, b] => by
    simp only [b64encode, List.mem_cons, List.not_mem_nil, or_false]
    rintro ch (rfl | rfl | rfl) <;> exact sextetToChar_ne_dot _
  | a :: b :: c :: rest => by
    simp only [b64encode, List.mem_cons]
    rintro ch (rfl | rfl | rfl | rfl | hm)
    · exact sextetToChar_ne_dot _
    · exact sextetToChar_ne_dot _
    · exact sextetToChar_ne_dot _
    · exact sextetToChar_ne_dot _
    · exact b64encode_no_dot rest ch hm

/-- Base64url decoding inverts encoding on byte strings. -/
theorem b64decode_encode : ∀ bs : Bytes, allBytes bs →
    b64decode (b64encode bs) = some bs
  | [], _ => rfl
  | [a], h => by
    have ha : a < 256 := h a (by simp)
    simp only [b64encode, b64decode,
      charToSextet_sextetToChar (a / 4) (by omega),
      charToSextet_sextetToChar (a % 4 * 16) (by omega)]
    simp only [Option.bind_eq_bind, Option.some_bind, Option.some.injEq,
      List.cons.injEq, and_true]
    omega
  | [a, b], h => by
    have ha : a < 256 := h a (by simp)
    have hb : b < 256 := h b (by simp)
    simp only [b64encode, b64decode,
      charToSextet_sextetToChar (a / 4) (by omega),
      charToSextet_sextetToChar (a % 4 * 16 + b / 16) (by omega),
      charToSextet_sextetToChar (b % 16 * 4) (by omega)]
    simp only [Option.bind_eq_bind, Option.some_bind, Option.some.injEq,
      List.cons.injEq, and_true]
    constructor <;> omega
  | a :: b :: c :: rest, h => by
    have ha : a < 256 := h a (by simp)
    have hb : b < 256 := h b (by simp)
    have hc : c < 256 := h c (by simp)
    have hrest : allBytes rest := fun x hx => h x (by simp [hx])
    have ih := b64decode_encode rest hrest
    simp only [b64encode, b64decode,
      charToSextet_sextetToChar (a / 4) (by omega),
      charToSextet_sextetToChar (a % 4 * 16 + b / 16) (by omega),
      charToSextet_sextetToChar (b % 16 * 4 + c / 64) (by omega),
      charToSextet_sextetToChar (c % 64) (by omega), ih]
    simp only [Option.bind_eq_bind, Option.some_bind, Option.some.injEq,
      List.cons.injEq, and_true]
    refine ⟨by omega, by omega, by omega⟩

/-- A dot-free character list is one whole segment. -/
theorem splitOnDot_no_dot :
    ∀ l : List Char, (∀ ch ∈ l, ch ≠ '.') → splitOnDot l = [l]
  | [], _ => rfl
  | c :: rest, h => by
    have hc : c ≠ '.' := h c (by simp)
    have ih := splitOnDot_no_dot rest (fun ch hm => h ch (by simp [hm]))
    simp [splitOnDot, hc, ih]

/-- Splitting after a dot-free head segment peels off that segment. -/
theorem splitOnDot_append_dot :
    ∀ a : List Char, (∀ ch ∈ a, ch ≠ '.') →
      ∀ r, splitOnDot (a ++ '.' :: r) = a :: splitOnDot r
  | [], _, r => by simp [splitOnDot]
  | c :: a, h, r => by
    have hc : c ≠ '.' := h c (by simp)
    have ih := splitOnDot_append_dot a (fun ch hm => h ch (by simp [hm])) r
    simp [splitOnDot, hc, ih]

mutual

/-- The JSON values whose string content is made of byte values. -/
def JsonValid : Json → Prop
  | .str s => allBytes s
  | .num _ => True
  | .obj fs => FieldsValid fs

/-- Pointwise validity of object fields. -/
def FieldsValid : List (Bytes × Json) → Prop
  | [] => True
  | (k, v) :: rest => allBytes k ∧ JsonValid v ∧ FieldsValid rest

end

/-- The empty byte string is a byte string. -/
theorem allBytes_nil : allBytes [] := by
  intro x hx
  cases hx

/-- Byte strings are closed under cons. -/
theorem allBytes_cons {x : Nat} {l : Bytes} (hx : x < 256)
    (hl : allBytes l) : allBytes (x :: l) := by
  intro y hy
  rcases List.mem_cons.mp hy with rfl | hy2
  · exact hx
  · exact hl y hy2

/-- Byte strings are closed under append. -/
theorem allBytes_append {a b : Bytes} (ha : allBytes a) (hb : allBytes b) :
    allBytes (a ++ b) := by
  intro x hx
  rcases List.mem_append.mp hx with h | h
  · exact ha x h
  · exact hb x h

/-- Escaping one byte yields bytes. -/
theorem allBytes_escapeByte {b : Nat} (hb : b < 256) :
    allBytes (escapeByte b) := by
  unfold escapeByte hexDigit
  split_ifs <;> intro x hx <;> simp_all <;> omega

/-- Escaping a byte string yields bytes. -/
theorem allBytes_escapeBytes {s : Bytes} (hs : allBytes s) :
    allBytes (escapeBytes s) := by
  intro x hx
  unfold escapeBytes at hx
  rcases List.mem_flatMap.mp hx with ⟨b, hb, hxb⟩
  exact allBytes_escapeByte (hs b hb) x hxb

/-- A quoted string literal is made of bytes. -/
theorem allBytes_quoteStr {s : Bytes} (hs : allBytes s) :
    allBytes (quoteStr s) :=
  allBytes_cons (by omega)
    (allBytes_append (allBytes_escapeBytes hs)
      (by intro x hx; simp at hx; omega))

/-- Decimal digit emission yields bytes, for any fuel. -/
theorem allBytes_natDigitsAux : ∀ fuel n, allBytes (natDigitsAux fuel n)
  | 0, _ => allBytes_nil
  | fuel + 1, n => by
    unfold natDigitsAux
    split
    · intro x hx; simp at hx; omega
    · exact allBytes_append (allBytes_natDigitsAux fuel (n / 10))
        (by intro x hx; simp at hx; omega)

/-- Decimal rendering of a natural yields bytes. -/
theorem allBytes_natDigits (n : Nat) : allBytes (natDigits n) :=
  allBytes_natDigitsAux (n + 1) n

mutual

/-- Serializing a valid JSON value yields a byte string. -/
theorem allBytes_jsonStringify :
    ∀ j : Json, JsonValid j → allBytes (jsonStringify j)
  | .str s, h => allBytes_quoteStr h
  | .num n, _ => allBytes_natDigits n
  | .obj fs, h => by
    rw [jsonStringify]
    exact allBytes_cons (by omega)
      (allBytes_append (allBytes_jsonFieldsStr fs h)
        (by intro x hx; simp at hx; omega))

/-- Serializing valid object fields yields a byte string. -/
theorem allBytes_jsonFieldsStr :
    ∀ fs : List (Bytes × Json), FieldsValid fs →
      allBytes (jsonFieldsStr fs)
  | [], _ => allBytes_nil
  | [(k, v)], h => by
    rw [jsonFieldsStr]
    have hx : allBytes k ∧ JsonValid v ∧ FieldsValid [] := h
    exact allBytes_append (allBytes_quoteStr hx.1)
      (allBytes_cons (by omega) (allBytes_jsonStringify v hx.2.1))
  | (k, v) :: kv :: rest, h => by
    rw [jsonFieldsStr]
    have hx : allBytes k ∧ JsonValid v ∧ FieldsValid (kv :: rest) := h
    exact allBytes_append
      (allBytes_append (allBytes_quoteStr hx.1)
        (allBytes_cons (by omega) (allBytes_jsonStringify v hx.2.1)))
      (allBytes_cons (by omega)
        (allBytes_jsonFieldsStr (kv :: rest) hx.2.2))

end

/-- The header literal has byte-valued content. -/
theorem headerJson_valid : JsonValid headerJson := by
  simp only [headerJson, JsonValid, FieldsValid]
  exact ⟨by decide, by decide, by decide, by decide, trivial⟩

/-- The payload literal has byte-valued content whenever iss and sub do. -/
theorem payloadJson_valid (iss sub : Bytes) (hi : allBytes iss)
    (hs : allBytes sub) (iat : Nat) : JsonValid (payloadJson iss sub iat) := by
  simp only [payloadJson, JsonValid, FieldsValid]
  exact ⟨by decide, hi, by decide, hs, by decide, by decide, by decide,
         trivial, by decide, trivial, by decide, by decide, trivial⟩

/-- C5: for every issuer, subject and timestamp (byte-valued identity
strings, with signing abstracted as a function to signature bytes), the
assertion built by createJWT is exactly three base64url-encoded segments
joined by dots: the first decodes to the serialized header object whose alg
is RS256 and whose typ is JWT, the second decodes to the serialized claims
object carrying the supplied iss, sub, the fixed aud and scope, iat, and an
exp field equal to iat + 3600, and the third decodes to the signature
bytes. -/
theorem createJWT_shape (iss sub : Bytes) (iat : Nat)
    (sign : List Char → Bytes)
    (hiss : allBytes iss) (hsub : allBytes sub)
    (hsig : allBytes (sign (base64UrlEncode (jsonStringify headerJson) ++
      '.' :: base64UrlEncode (jsonStringify (payloadJson iss sub iat))))) :
    splitOnDot (createJWT iss sub iat sign) =
      [base64UrlEncode (jsonStringify headerJson),
       base64UrlEncode (jsonStringify (payloadJson iss sub iat)),
       base64UrlEncode (sign (base64UrlEncode (jsonStringify headerJson) ++
         '.' :: base64UrlEncode (jsonStringify (payloadJson iss sub iat))))] ∧
    b64decode (base64UrlEncode (jsonStringify headerJson)) =
      some (jsonStringify headerJson) ∧
    b64decode (base64UrlEncode (jsonStringify (payloadJson iss sub iat))) =
      some (jsonStringify (payloadJson iss sub iat)) ∧
    b64decode (base64UrlEncode (sign (base64UrlEncode
        (jsonStringify headerJson) ++
      '.' :: base64UrlEncode (jsonStringify (payloadJson iss sub iat))))) =
      some (sign (base64UrlEncode (jsonStringify headerJson) ++
        '.' :: base64UrlEncode (jsonStringify (payloadJson iss sub iat)))) ∧
    Json.lookup headerJson (strBytes "alg") =
      some (.str (strBytes "RS256")) ∧
    Json.lookup headerJson (strBytes "typ") = some (.str (strBytes "JWT")) ∧
    Json.lookup (payloadJson iss sub iat) (strBytes "iss") =
      some (.str iss) ∧
    Json.lookup (payloadJson iss sub iat) (strBytes "sub") =
      some (.str sub) ∧
    Json.lookup (payloadJson iss sub iat) (strBytes "aud") =
      some (.str (strBytes "account-d.docusign.com")) ∧
    Json.lookup (payloadJson iss sub iat) (strBytes "iat") =
      some (.num iat) ∧
    Json.lookup (payloadJson iss sub iat) (strBytes "scope") =
      some (.str (strBytes "signature impersonation")) ∧
    Json.lookup (payloadJson iss sub iat) (strBytes "exp") =
      some (.num (iat + 3600)) := by
  have hH : allBytes (jsonStringify headerJson) :=
    allBytes_jsonStringify _ headerJson_valid
  have hP : allBytes (jsonStringify (payloadJson iss sub iat)) :=
    allBytes_jsonStringify _ (payloadJson_valid iss sub hiss hsub iat)
  refine ⟨?_, b64decode_encode _ hH, b64decode_encode _ hP,
    b64decode_encode _ hsig, rfl, rfl, rfl, rfl, rfl, rfl, rfl, rfl⟩
  show splitOnDot
      ((b64encode (jsonStringify headerJson) ++
        '.' :: b64encode (jsonStringify (payloadJson iss sub iat))) ++
       '.' :: b64encode (sign (base64UrlEncode
          (jsonStringify headerJson) ++
        '.' :: base64UrlEncode (jsonStringify (payloadJson iss sub iat))))) =
      [b64encode (jsonStringify headerJson),
       b64encode (jsonStringify (payloadJson iss sub iat)),
       b64encode (sign (base64UrlEncode (jsonStringify headerJson) ++
         '.' :: base64UrlEncode (jsonStringify (payloadJson iss sub iat))))]
  rw [List.append_assoc, List.cons_append]
  rw [splitOnDot_append_dot _ (fun ch hm => b64encode_no_dot _ ch hm) _,
      splitOnDot_append_dot _ (fun ch hm => b64encode_no_dot _ ch hm) _,
      splitOnDot_no_dot _ (fun ch hm => b64encode_no_dot _ ch hm)]

/-- C5 witness: at empty identity strings, timestamp zero and the trivial
signer, the produced assertion splits into the three expected segments and
its claims object carries exp equal to iat + 3600. -/
theorem createJWT_shape_witness :
    splitOnDot (createJWT [] [] 0 (fun _ => [])) =
      [base64UrlEncode (jsonStringify headerJson),
       base64UrlEncode (jsonStringify (payloadJson [] [] 0)),
       base64UrlEncode []] ∧
    Json.lookup (payloadJson [] [] 0) (strBytes "exp") =
      some (.num (0 + 3600)) :=
  ⟨(createJWT_shape [] [] 0 (fun _ => []) allBytes_nil allBytes_nil
      allBytes_nil).1,
   (createJWT_shape [] [] 0 (fun _ => []) allBytes_nil allBytes_nil
      allBytes_nil).2.2.2.2.2.2.2.2.2.2.2⟩

end SCIAM
